import Mathlib

/-!
Shallow embedding of the authentication form logic of
`src/src/components/AuthForm.tsx` (the React component `AuthForm` and the
firebase wrapper functions `signUp`, `signIn`, `resetPassword` shipped with
it).  React `useState` cells become fields of an explicit `AuthState`
record; the asynchronous external operations become oracle parameters that
say whether the call returned a structured result or threw; the toast sink
becomes a recorded list of toast invocations together with an oracle saying
which toast invocations themselves throw.
-/

namespace AuthForm

/-- The four text fields of the form (`FormData` keys in the source). -/
inductive Field
  | name
  | email
  | password
  | confirmPassword
deriving DecidableEq, Repr

/-- `interface FormData` of the source: the four text field values. -/
structure FormData where
  name : String
  email : String
  password : String
  confirmPassword : String
deriving DecidableEq, Repr

def FormData.get (fd : FormData) : Field → String
  | .name => fd.name
  | .email => fd.email
  | .password => fd.password
  | .confirmPassword => fd.confirmPassword

def FormData.set (fd : FormData) : Field → String → FormData
  | .name, v => { fd with name := v }
  | .email, v => { fd with email := v }
  | .password, v => { fd with password := v }
  | .confirmPassword, v => { fd with confirmPassword := v }

/-- `Partial<FormData>`: the per-field error mapping.  `none` models an
absent key, `some m` a key present with message `m` (the source can store
the empty string `""` as a message, see `handleInputChange`). -/
structure Errors where
  name : Option String
  email : Option String
  password : Option String
  confirmPassword : Option String
deriving DecidableEq, Repr

def Errors.get (e : Errors) : Field → Option String
  | .name => e.name
  | .email => e.email
  | .password => e.password
  | .confirmPassword => e.confirmPassword

def Errors.set (e : Errors) : Field → Option String → Errors
  | .name, v => { e with name := v }
  | .email, v => { e with email := v }
  | .password, v => { e with password := v }
  | .confirmPassword, v => { e with confirmPassword := v }

/-- The empty mapping `{}`. -/
def Errors.empty : Errors := ⟨none, none, none, none⟩

/-- `Object.keys(newErrors).length`: the number of keys present. -/
def Errors.keyCount (e : Errors) : Nat :=
  (if e.name.isSome then 1 else 0) + (if e.email.isSome then 1 else 0) +
    (if e.password.isSome then 1 else 0) + (if e.confirmPassword.isSome then 1 else 0)

/-- JavaScript truthiness of an optional string slot: `undefined` and `""`
are falsy, every other string is truthy.  This is the test performed by
`if (errors[name])` and by the `errors.x && ...` renderings. -/
def truthyOpt : Option String → Bool
  | none => false
  | some s => !(s == "")

/-- The whitespace class of the JavaScript regex `\s` (ASCII part). -/
def jsWhitespace (c : Char) : Bool :=
  c == ' ' || c == '\t' || c == '\n' || c == '\r' || c == '\x0b' || c == '\x0c'

/-- `\S`: a non-whitespace character. -/
def nonSpace (c : Char) : Bool := !jsWhitespace c

/-- A nonempty block of non-space characters, the denotation of `\S+`. -/
def nonEmptyNonSpace (b : List Char) : Bool := !b.isEmpty && b.all nonSpace

/-- All splits of a list into a prefix and the matching suffix, in order of
growing prefix. -/
def splitsList : List Char → List (List Char × List Char)
  | [] => [([], [])]
  | c :: cs => ([], c :: cs) :: (splitsList cs).map (fun p => (c :: p.1, p.2))

/-- Does `\.\S+` match a prefix of `cs`? -/
def prefixAfterDot (cs : List Char) : Bool :=
  match cs with
  | [] => false
  | c :: rest => c == '.' && (splitsList rest).any fun dp => nonEmptyNonSpace dp.1

/-- Does `@\S+\.\S+` match a prefix of `cs`? -/
def prefixAfterAt (cs : List Char) : Bool :=
  match cs with
  | [] => false
  | c :: rest => c == '@' &&
      (splitsList rest).any fun cp => nonEmptyNonSpace cp.1 && prefixAfterDot cp.2

/-- Does `\S+@\S+\.\S+` match starting at the head of `cs` (consuming a
prefix, the rest of the string unconstrained)? -/
def prefixEmail (cs : List Char) : Bool :=
  (splitsList cs).any fun bp => nonEmptyNonSpace bp.1 && prefixAfterAt bp.2

/-- `/\S+@\S+\.\S+/.test(s)`: an unanchored search, true iff the pattern
matches at some position of the string. -/
def emailRegexTest (s : String) : Bool :=
  (splitsList s.data).any fun pp => prefixEmail pp.2

/-- Modelled from the spec: `\.\S+` matching the whole of `cs`. -/
def specAfterDot (cs : List Char) : Bool :=
  match cs with
  | [] => false
  | c :: rest => c == '.' && nonEmptyNonSpace rest

/-- Modelled from the spec: `@\S+\.\S+` matching the whole of `cs`. -/
def specAfterAt (cs : List Char) : Bool :=
  match cs with
  | [] => false
  | c :: rest => c == '@' &&
      (splitsList rest).any fun cp => nonEmptyNonSpace cp.1 && specAfterDot cp.2

/-- Modelled from the spec: the email shape of §4.1 read as a description
of the whole string — "one-or-more non-space chars, '@', one-or-more
non-space chars, '.', one-or-more non-space chars", anchored at both ends. -/
def specEmailShape (s : String) : Bool :=
  (splitsList s.data).any fun bp => nonEmptyNonSpace bp.1 && specAfterAt bp.2

/-- `validateForm` of the source: recomputes the error mapping from scratch
and returns it together with the boolean result
`Object.keys(newErrors).length === 0`.  (In the source the mapping is
stored with `setErrors`; here it is the first component.) -/
def validateForm (isLogin : Bool) (formData : FormData) : Errors × Bool :=
  let e0 := Errors.empty
  let e1 :=
    if formData.email == "" then { e0 with email := some "Email is required" }
    else if !emailRegexTest formData.email then { e0 with email := some "Email is invalid" }
    else e0
  let e2 :=
    if formData.password == "" then { e1 with password := some "Password is required" }
    else if formData.password.length < 6 then
      { e1 with password := some "Password must be at least 6 characters" }
    else e1
  let e3 :=
    if !isLogin then
      let e2a :=
        if formData.name == "" then { e2 with name := some "Name is required" } else e2
      if formData.confirmPassword == "" then
        { e2a with confirmPassword := some "Please confirm your password" }
      else if formData.password != formData.confirmPassword then
        { e2a with confirmPassword := some "Passwords do not match" }
      else e2a
    else e2
  (e3, e3.keyCount == 0)

/-- The email slot of the mapping computed by `validateForm`. -/
def emailErr (fd : FormData) : Option String :=
  if fd.email == "" then some "Email is required"
  else if !emailRegexTest fd.email then some "Email is invalid"
  else none

/-- The password slot of the mapping computed by `validateForm`. -/
def passwordErr (fd : FormData) : Option String :=
  if fd.password == "" then some "Password is required"
  else if fd.password.length < 6 then some "Password must be at least 6 characters"
  else none

/-- The name slot of the mapping computed by `validateForm`. -/
def nameErr (isLogin : Bool) (fd : FormData) : Option String :=
  if isLogin then none
  else if fd.name == "" then some "Name is required"
  else none

/-- The confirm-password slot of the mapping computed by `validateForm`. -/
def confirmErr (isLogin : Bool) (fd : FormData) : Option String :=
  if isLogin then none
  else if fd.confirmPassword == "" then some "Please confirm your password"
  else if fd.password != fd.confirmPassword then some "Passwords do not match"
  else none

/-- The `useState` cells of the component gathered into one record. -/
structure AuthState where
  isLogin : Bool
  formData : FormData
  showPassword : Bool
  showConfirmPassword : Bool
  loading : Bool
  errors : Errors
deriving DecidableEq, Repr

/-- The initial state of the component (the `useState` initializers). -/
def initialState : AuthState :=
  { isLogin := true, formData := ⟨"", "", "", ""⟩, showPassword := false,
    showConfirmPassword := false, loading := false, errors := Errors.empty }

/-- `validateForm` viewed as an operation on the whole component state:
it stores the freshly computed mapping with `setErrors` and returns the
boolean result. -/
def validate (s : AuthState) : AuthState × Bool :=
  let v := validateForm s.isLogin s.formData
  ({ s with errors := v.1 }, v.2)

/-- One invocation of the `toast` sink: title, optional description and
whether `variant: "destructive"` was passed. -/
structure Toast where
  title : String
  description : Option String
  destructive : Bool
deriving DecidableEq, Repr

def loginFailToast (m : Option String) : Toast := ⟨"Login Failed", m, true⟩
def loginOkToast : Toast := ⟨"Welcome back!", some "You have successfully logged in.", false⟩
def regFailToast (m : Option String) : Toast := ⟨"Registration Failed", m, true⟩
def regOkToast : Toast := ⟨"Account Created!", some "Your account has been created successfully.", false⟩
def genericErrToast : Toast := ⟨"Error", some "Something went wrong. Please try again.", true⟩
def emailRequiredToast : Toast := ⟨"Email Required", some "Please enter your email address first.", true⟩
def resetOkToast : Toast := ⟨"Reset Email Sent", some "Check your email for password reset instructions.", false⟩
def resetFailToast (m : Option String) : Toast := ⟨"Reset Failed", m, true⟩

/-- An invocation of one of the three external operations, with its
arguments. -/
inductive ExtCall
  | signInCall (email password : String)
  | signUpCall (email password name : String)
  | resetCall (email : String)
deriving DecidableEq, Repr

/-- Oracle for one awaited `signIn`/`signUp` call: either it returned the
structured record `{ user, error }` (`error = none` on success) or it threw. -/
inductive AuthCallResult
  | returns (error : Option String)
  | thrown
deriving DecidableEq, Repr

/-- Oracle for one awaited `resetPassword` call: either it returned the
structured record `{ success, error }` or it threw. -/
inductive ResetCallResult
  | returns (success : Bool) (error : Option String)
  | thrown
deriving DecidableEq, Repr

/-- Observable outcome of running one handler: the state after it settles,
the external calls it dispatched in order, the toast invocations it made in
order, every value assigned to `loading` in order, and whether an exception
propagated out of the handler. -/
structure HandlerResult where
  state : AuthState
  calls : List ExtCall
  toasts : List Toast
  loadingSets : List Bool
  raised : Bool
deriving Repr

/-- `handleSubmit` of the source.  `res` is the behaviour of the one
external call the handler makes (if validation passes); `tf t = true`
means the toast sink throws on invocation `t`.  The `try/catch/finally`
of the source is modelled explicitly: a throw of the external call or of a
toast inside the `try` block transfers control to `catch`, whose generic
toast may itself throw past the handler; `finally` always runs
`setLoading(false)`. -/
def handleSubmit (s : AuthState) (res : AuthCallResult) (tf : Toast → Bool) : HandlerResult :=
  let v := validateForm s.isLogin s.formData
  if !v.2 then
    { state := { s with errors := v.1 }, calls := [], toasts := [],
      loadingSets := [], raised := false }
  else
    let theCall :=
      if s.isLogin then ExtCall.signInCall s.formData.email s.formData.password
      else ExtCall.signUpCall s.formData.email s.formData.password s.formData.name
    let inner : List Toast × Bool :=
      match res with
      | .thrown => ([], true)
      | .returns e =>
        let t :=
          if s.isLogin then (if truthyOpt e then loginFailToast e else loginOkToast)
          else (if truthyOpt e then regFailToast e else regOkToast)
        ([t], tf t)
    let allToasts :=
      if inner.2 then inner.1 ++ [genericErrToast] else inner.1
    let raisedOut := if inner.2 then tf genericErrToast else false
    { state := { s with errors := v.1, loading := false },
      calls := [theCall], toasts := allToasts,
      loadingSets := [true, false], raised := raisedOut }

/-- `handleForgotPassword` of the source.  Note that it has no
`try/catch`: a thrown fault of the awaited `resetPassword` call propagates
out (`raised := true`) and no toast is emitted in that case. -/
def handleForgotPassword (s : AuthState) (res : ResetCallResult) (tf : Toast → Bool) :
    HandlerResult :=
  if s.formData.email == "" then
    { state := s, calls := [], toasts := [emailRequiredToast],
      loadingSets := [], raised := tf emailRequiredToast }
  else
    match res with
    | .thrown =>
      { state := s, calls := [ExtCall.resetCall s.formData.email], toasts := [],
        loadingSets := [], raised := true }
    | .returns ok e =>
      let t := if ok then resetOkToast else resetFailToast e
      { state := s, calls := [ExtCall.resetCall s.formData.email], toasts := [t],
        loadingSets := [], raised := tf t }

/-- The return value of the `resetPassword` wrapper in the firebase lib. -/
structure ResetRet where
  success : Bool
  error : Option String
deriving DecidableEq, Repr

/-- The `resetPassword` wrapper of the firebase lib: it awaits
`sendPasswordResetEmail` inside its own `try/catch` and always returns a
structured record.  `sendResult = none` models the send succeeding,
`sendResult = some m` models it throwing with message `m`. -/
def resetPassword (sendResult : Option String) : ResetRet :=
  match sendResult with
  | none => ⟨true, none⟩
  | some m => ⟨false, some m⟩

/-- `handleInputChange` of the source, for field `f` receiving value `v`:
updates that field, and if that field's error slot is currently truthy,
overwrites it with the empty string. -/
def handleInputChange (s : AuthState) (f : Field) (v : String) : AuthState :=
  let fd := s.formData.set f v
  let errs := if truthyOpt (s.errors.get f) then s.errors.set f (some "") else s.errors
  { s with formData := fd, errors := errs }

/-- `toggleForm` of the source: flip the mode, blank the four fields, clear
the errors and both reveal flags; `loading` is not written. -/
def toggleForm (s : AuthState) : AuthState :=
  { isLogin := !s.isLogin, formData := ⟨"", "", "", ""⟩, errors := Errors.empty,
    showPassword := false, showConfirmPassword := false, loading := s.loading }

/-- Modelled from the spec: the §4.1 email rule as one boolean (nonempty
and passing the pattern test of the source regex). -/
def emailRuleOk (fd : FormData) : Bool :=
  !(fd.email == "") && emailRegexTest fd.email

/-- Modelled from the spec: the §4.1 password rule. -/
def passwordRuleOk (fd : FormData) : Bool :=
  !(fd.password == "") && !(fd.password.length < 6)

/-- Modelled from the spec: the §4.1 name rule (Register mode only). -/
def nameRuleOk (fd : FormData) : Bool := !(fd.name == "")

/-- Modelled from the spec: the §4.1 confirm-password rule (Register mode
only). -/
def confirmRuleOk (fd : FormData) : Bool :=
  !(fd.confirmPassword == "") && !(fd.password != fd.confirmPassword)

/-- Modelled from the spec: all §4.1 rules active in the given mode hold. -/
def activeRulesOk (isLogin : Bool) (fd : FormData) : Bool :=
  emailRuleOk fd && passwordRuleOk fd &&
    (isLogin || (nameRuleOk fd && confirmRuleOk fd))

/-- A toast oracle under which the sink never throws. -/
def noToastFail : Toast → Bool := fun _ => false

/-- A toast oracle under which every toast invocation throws. -/
def allToastFail : Toast → Bool := fun _ => true

/-- A Login-mode state with a valid email and password. -/
def loginState : AuthState :=
  { initialState with formData := ⟨"", "a@b.c", "123456", ""⟩ }

/-- A Register-mode state satisfying all §4.1 rules. -/
def regState : AuthState :=
  { initialState with
      isLogin := false
      formData := ⟨"Jane Doe", "a@b.c", "123456", "123456"⟩ }

/-- A state whose email field currently has a truthy error. -/
def emailErrState : AuthState :=
  { initialState with errors := { Errors.empty with email := some "Email is invalid" } }

lemma mem_splitsList_nil_self (cs : List Char) : (([] : List Char), cs) ∈ splitsList cs := by
  cases cs <;> simp [splitsList]

lemma mem_splitsList_self_nil (cs : List Char) : (cs, ([] : List Char)) ∈ splitsList cs := by
  induction cs with
  | nil => simp [splitsList]
  | cons c cs ih =>
    simp only [splitsList, List.mem_cons, List.mem_map]
    exact Or.inr ⟨(cs, []), ih, rfl⟩

lemma specAfterDot_imp (cs : List Char) (h : specAfterDot cs = true) :
    prefixAfterDot cs = true := by
  cases cs with
  | nil => simp [specAfterDot] at h
  | cons c rest =>
    simp only [specAfterDot, Bool.and_eq_true] at h
    simp only [prefixAfterDot, Bool.and_eq_true, List.any_eq_true]
    exact ⟨h.1, (rest, []), mem_splitsList_self_nil rest, h.2⟩

lemma specAfterAt_imp (cs : List Char) (h : specAfterAt cs = true) :
    prefixAfterAt cs = true := by
  cases cs with
  | nil => simp [specAfterAt] at h
  | cons c rest =>
    simp only [specAfterAt, Bool.and_eq_true, List.any_eq_true] at h
    obtain ⟨hc, cp, hmem, hcp1, hcp2⟩ := h
    simp only [prefixAfterAt, Bool.and_eq_true, List.any_eq_true]
    exact ⟨hc, cp, hmem, hcp1, specAfterDot_imp cp.2 hcp2⟩

lemma specEmailShape_imp (s : String) (h : specEmailShape s = true) :
    emailRegexTest s = true := by
  simp only [specEmailShape, Bool.and_eq_true, List.any_eq_true] at h
  obtain ⟨bp, hmem, hbp1, hbp2⟩ := h
  simp only [emailRegexTest, List.any_eq_true]
  refine ⟨([], s.data), mem_splitsList_nil_self s.data, ?_⟩
  simp only [prefixEmail, Bool.and_eq_true, List.any_eq_true]
  exact ⟨bp, hmem, hbp1, specAfterAt_imp bp.2 hbp2⟩

set_option maxHeartbeats 1000000 in
lemma validateForm_fst (b : Bool) (fd : FormData) :
    (validateForm b fd).1 = ⟨nameErr b fd, emailErr fd, passwordErr fd, confirmErr b fd⟩ := by
  cases b <;>
    simp only [validateForm, nameErr, emailErr, passwordErr, confirmErr, Errors.empty,
      Bool.not_true, Bool.not_false, if_true, if_false]
  · split <;> split <;> (try split) <;> (try split) <;> (try split) <;> (try split) <;>
      (try split) <;> first | rfl | simp_all
  · split <;> split <;> (try split) <;> (try split) <;> (try split) <;> (try split) <;>
      (try split) <;> first | rfl | simp_all

lemma validateForm_snd (b : Bool) (fd : FormData) :
    (validateForm b fd).2 = ((validateForm b fd).1.keyCount == 0) := rfl

lemma keyCount_eq_zero (e : Errors) :
    (e.keyCount == 0) = (e.name.isNone && e.email.isNone && e.password.isNone &&
      e.confirmPassword.isNone) := by
  rcases e with ⟨n, m, p, c⟩
  cases n <;> cases m <;> cases p <;> cases c <;> rfl

lemma emailErr_isNone (fd : FormData) : (emailErr fd).isNone = emailRuleOk fd := by
  simp only [emailErr, emailRuleOk]
  split <;> rename_i h
  · simp [h]
  · split <;> rename_i h2 <;> simp_all

lemma passwordErr_isNone (fd : FormData) : (passwordErr fd).isNone = passwordRuleOk fd := by
  simp only [passwordErr, passwordRuleOk]
  split <;> rename_i h
  · simp [h]
  · split <;> rename_i h2 <;> simp_all

lemma nameErr_isNone (b : Bool) (fd : FormData) :
    (nameErr b fd).isNone = (b || nameRuleOk fd) := by
  simp only [nameErr, nameRuleOk]
  split <;> rename_i h
  · simp [h]
  · split <;> rename_i h2 <;> simp_all

lemma confirmErr_isNone (b : Bool) (fd : FormData) :
    (confirmErr b fd).isNone = (b || confirmRuleOk fd) := by
  simp only [confirmErr, confirmRuleOk]
  split <;> rename_i h
  · simp [h]
  · split <;> rename_i h2
    · simp_all
    · split <;> rename_i h3 <;> simp_all

lemma validate_true_iff (b : Bool) (fd : FormData) :
    ((validateForm b fd).2 = true) ↔ (activeRulesOk b fd = true) := by
  rw [validateForm_snd, validateForm_fst, keyCount_eq_zero]
  simp only [nameErr_isNone, emailErr_isNone, passwordErr_isNone, confirmErr_isNone,
    activeRulesOk]
  cases b <;> cases hE : emailRuleOk fd <;> cases hP : passwordRuleOk fd <;>
    cases hN : nameRuleOk fd <;> cases hC : confirmRuleOk fd <;> simp

lemma formData_get_set_self (fd : FormData) (f : Field) (v : String) :
    (fd.set f v).get f = v := by
  cases f <;> rfl

lemma formData_get_set_ne (fd : FormData) (f g : Field) (v : String) (h : g ≠ f) :
    (fd.set f v).get g = fd.get g := by
  cases f <;> cases g <;> first | rfl | exact absurd rfl h

lemma errors_get_set_self (e : Errors) (f : Field) (v : Option String) :
    (e.set f v).get f = v := by
  cases f <;> rfl

lemma errors_get_set_ne (e : Errors) (f g : Field) (v : Option String) (h : g ≠ f) :
    (e.set f v).get g = e.get g := by
  cases f <;> cases g <;> first | rfl | exact absurd rfl h

/-- C1: for every form state, `validate()` returns true iff every
active-mode rule of §4.1 holds (email and password rules always, name and
confirm-password rules only in Register mode), it replaces the stored
error mapping wholesale with the freshly computed one (a function of the
mode and field values only, never of the previous mapping), and after a
Login-mode validation the name and confirm-password error slots are never
present. -/
theorem validate_spec (s : AuthState) :
    ((validate s).2 = true ↔ activeRulesOk s.isLogin s.formData = true) ∧
    (validate s).1.errors = (validateForm s.isLogin s.formData).1 ∧
    (∀ fd : FormData, (validateForm true fd).1.name = none ∧
      (validateForm true fd).1.confirmPassword = none) := by
  refine ⟨validate_true_iff s.isLogin s.formData, rfl, fun fd => ?_⟩
  rw [validateForm_fst]
  exact ⟨rfl, rfl⟩

/-- C2 counterexample: the email `"a b@c.d"` is nonempty and does not
match the spec's shape "one-or-more non-space chars, '@', one-or-more
non-space chars, '.', one-or-more non-space chars" read as a description
of the whole string (it contains a space), yet `validateForm` records no
email error for it, because the source regex `/\S+@\S+\.\S+/.test` is an
unanchored substring search. -/
theorem email_shape_counterexample :
    ("a b@c.d" == "") = false ∧
    specEmailShape "a b@c.d" = false ∧
    (validateForm true ⟨"", "a b@c.d", "123456", ""⟩).1.email = none := by
  refine ⟨rfl, by decide, by decide⟩

/-- C2 (amended): `validate()` produces the email error "Email is
required" exactly when the email is empty, and otherwise produces "Email
is invalid" exactly when no substring of the email matches the shape
"one-or-more non-space chars, '@', one-or-more non-space chars, '.',
one-or-more non-space chars" (the regex test is an unanchored search);
in particular any email matching that shape as a whole string yields no
email error. -/
theorem email_error_spec :
    (∀ (b : Bool) (fd : FormData),
      (validateForm b fd).1.email =
        (if fd.email == "" then some "Email is required"
         else if !emailRegexTest fd.email then some "Email is invalid" else none)) ∧
    (∀ s : String, specEmailShape s = true → emailRegexTest s = true) := by
  refine ⟨fun b fd => ?_, specEmailShape_imp⟩
  rw [validateForm_fst]
  rfl

/-- Witness for C2 (amended) at the concrete email `"a@b.c"`. -/
theorem email_error_spec_witness :
    specEmailShape "a@b.c" = true ∧ emailRegexTest "a@b.c" = true ∧
    (validateForm true ⟨"", "a@b.c", "123456", ""⟩).1.email = none :=
  ⟨by decide, email_error_spec.2 "a@b.c" (by decide), by decide⟩

/-- C7: `handleInputChange` updates exactly the changed field of the form
state, clears at most that field's own error (and only when that field
currently has a truthy error), never touches any other field's error, and
leaves the mode, loading flag and reveal flags alone. -/
theorem input_change_frame (s : AuthState) (f : Field) (v : String) :
    ((handleInputChange s f v).formData.get f = v) ∧
    (∀ g : Field, g ≠ f → (handleInputChange s f v).formData.get g = s.formData.get g) ∧
    (∀ g : Field, g ≠ f → (handleInputChange s f v).errors.get g = s.errors.get g) ∧
    (truthyOpt (s.errors.get f) = false → (handleInputChange s f v).errors = s.errors) ∧
    (truthyOpt (s.errors.get f) = true →
      truthyOpt ((handleInputChange s f v).errors.get f) = false) ∧
    (handleInputChange s f v).isLogin = s.isLogin ∧
    (handleInputChange s f v).loading = s.loading ∧
    (handleInputChange s f v).showPassword = s.showPassword ∧
    (handleInputChange s f v).showConfirmPassword = s.showConfirmPassword := by
  refine ⟨?_, fun g hg => ?_, fun g hg => ?_, fun h => ?_, fun h => ?_, rfl, rfl, rfl, rfl⟩
  · simpa [handleInputChange] using formData_get_set_self s.formData f v
  · simpa [handleInputChange] using formData_get_set_ne s.formData f g v hg
  · by_cases h : truthyOpt (s.errors.get f) = true
    · simpa [handleInputChange, h] using errors_get_set_ne s.errors f g (some "") hg
    · simp [handleInputChange, h]
  · simp [handleInputChange, h]
  · simpa [handleInputChange, h] using
      congrArg truthyOpt (errors_get_set_self s.errors f (some ""))

/-- Witness for C7 at a concrete state with an email error. -/
theorem input_change_frame_witness :
    (handleInputChange emailErrState Field.email "x").formData.get Field.email = "x" ∧
    (handleInputChange emailErrState Field.email "x").errors.get Field.password =
      emailErrState.errors.get Field.password ∧
    truthyOpt ((handleInputChange emailErrState Field.email "x").errors.get Field.email) =
      false :=
  ⟨(input_change_frame emailErrState Field.email "x").1,
   (input_change_frame emailErrState Field.email "x").2.2.1 Field.password (by decide),
   (input_change_frame emailErrState Field.email "x").2.2.2.2.1 (by decide)⟩

/-- C8 counterexample: toggling twice from a Register-mode state with a
submission in flight does not reproduce the literal initial state — the
mode is Register again (the initial mode is Login) and `loading` is
preserved (initially false). -/
theorem toggle_twice_counterexample :
    toggleForm (toggleForm { initialState with isLogin := false, loading := true }) ≠
      initialState := by
  decide

/-- C8 (amended): `toggleForm` flips the mode and atomically resets the
four text fields, the error mapping and both reveal flags, leaving
`loading` untouched; hence toggling twice from any state yields an empty
form with no errors and cleared reveal flags — exactly the form content of
the initial state — with the mode back at its pre-toggle value and
`loading` preserved. -/
theorem toggle_mode_spec (s : AuthState) :
    (toggleForm s).isLogin = !s.isLogin ∧
    (toggleForm s).formData = FormData.mk "" "" "" "" ∧
    (toggleForm s).errors = Errors.empty ∧
    (toggleForm s).showPassword = false ∧
    (toggleForm s).showConfirmPassword = false ∧
    (toggleForm s).loading = s.loading ∧
    (toggleForm (toggleForm s)).formData = initialState.formData ∧
    (toggleForm (toggleForm s)).errors = initialState.errors ∧
    (toggleForm (toggleForm s)).showPassword = initialState.showPassword ∧
    (toggleForm (toggleForm s)).showConfirmPassword = initialState.showConfirmPassword ∧
    (toggleForm (toggleForm s)).isLogin = s.isLogin ∧
    (toggleForm (toggleForm s)).loading = s.loading := by
  refine ⟨rfl, rfl, rfl, rfl, rfl, rfl, rfl, rfl, rfl, rfl, ?_, rfl⟩
  simp [toggleForm]

/-- C10: editing a field whose error slot is truthy leaves that field's
key present in the mapping, mapped to the empty string `""` rather than
removed; and the truthiness test `truthyOpt` that every consumer applies
treats `some ""` exactly like an absent key. -/
theorem error_cleared_empty_string (s : AuthState) (f : Field) (v : String)
    (h : truthyOpt (s.errors.get f) = true) :
    (handleInputChange s f v).errors.get f = some "" ∧
    truthyOpt (some "") = truthyOpt none ∧ truthyOpt (some "") = false := by
  refine ⟨?_, rfl, rfl⟩
  simpa [handleInputChange, h] using errors_get_set_self s.errors f (some "")

/-- Witness for C10 at a concrete state with an email error. -/
theorem error_cleared_empty_string_witness :
    truthyOpt (emailErrState.errors.get Field.email) = true ∧
    (handleInputChange emailErrState Field.email "x").errors.get Field.email = some "" :=
  ⟨by decide, (error_cleared_empty_string emailErrState Field.email "x" (by decide)).1⟩

/-- C3: when validation succeeds, `submit()` dispatches exactly one
external call determined by the mode (`signIn(email, password)` in Login
mode, `signUp(email, password, name)` in Register mode) with the current
field values; with a non-throwing toast sink it emits exactly one
positive toast on a successful result ("Welcome back!" / "Account
Created!") and exactly one destructive toast carrying the
provider-supplied message on a structured error; the form fields are left
unchanged. -/
theorem submit_dispatch (s : AuthState) (res : AuthCallResult) (tf : Toast → Bool)
    (hv : (validateForm s.isLogin s.formData).2 = true)
    (htf : ∀ t, tf t = false) :
    (handleSubmit s res tf).calls =
      [if s.isLogin then ExtCall.signInCall s.formData.email s.formData.password
        else ExtCall.signUpCall s.formData.email s.formData.password s.formData.name] ∧
    (handleSubmit s res tf).state.formData = s.formData ∧
    (res = AuthCallResult.returns none →
      (handleSubmit s res tf).toasts = [if s.isLogin then loginOkToast else regOkToast]) ∧
    (∀ m : String, m ≠ "" → res = AuthCallResult.returns (some m) →
      (handleSubmit s res tf).toasts =
        [if s.isLogin then loginFailToast (some m) else regFailToast (some m)]) := by
  refine ⟨?_, ?_, ?_, ?_⟩
  · simp [handleSubmit, hv]
  · cases res <;> simp [handleSubmit, hv]
  · rintro rfl
    cases hL : s.isLogin <;> rw [hL] at hv <;>
      simp [handleSubmit, hv, hL, truthyOpt, htf]
  · rintro m hm rfl
    have hT : truthyOpt (some m) = true := by simp [truthyOpt, hm]
    cases hL : s.isLogin <;> rw [hL] at hv <;>
      simp [handleSubmit, hv, hL, hT, htf]

/-- Witness for C3: a fully valid Register-mode submission calling
`signUp` once and toasting "Account Created!" once. -/
theorem submit_dispatch_witness :
    (validateForm regState.isLogin regState.formData).2 = true ∧
    (handleSubmit regState (AuthCallResult.returns none) noToastFail).calls =
      [ExtCall.signUpCall "a@b.c" "123456" "Jane Doe"] ∧
    (handleSubmit regState (AuthCallResult.returns none) noToastFail).toasts =
      [regOkToast] := by
  have h := submit_dispatch regState (AuthCallResult.returns none) noToastFail
    (by decide) (fun t => rfl)
  exact ⟨by decide, by simpa [regState] using h.1, by simpa [regState] using h.2.2.1 rfl⟩

/-- C4: whenever `validate()` fails, `submit()` makes no external call,
performs no `loading` transition, emits no toast, and just stores the
computed errors; in particular with an empty email in Login mode it
records "Email is required" and calls nothing. -/
theorem submit_invalid_noop :
    (∀ (s : AuthState) (res : AuthCallResult) (tf : Toast → Bool),
      (validateForm s.isLogin s.formData).2 = false →
        (handleSubmit s res tf).calls = [] ∧
        (handleSubmit s res tf).loadingSets = [] ∧
        (handleSubmit s res tf).toasts = [] ∧
        (handleSubmit s res tf).state.loading = s.loading ∧
        (handleSubmit s res tf).state.errors = (validateForm s.isLogin s.formData).1) ∧
    (∀ (s : AuthState) (res : AuthCallResult) (tf : Toast → Bool),
      s.isLogin = true → s.formData.email = "" →
        (handleSubmit s res tf).calls = [] ∧
        (handleSubmit s res tf).state.errors.email = some "Email is required") := by
  refine ⟨fun s res tf hv => ?_, fun s res tf hL he => ?_⟩
  · simp [handleSubmit, hv]
  · have hv : (validateForm s.isLogin s.formData).2 = false := by
      rw [validateForm_snd, validateForm_fst, keyCount_eq_zero]
      simp [emailErr, he]
    refine ⟨by simp [handleSubmit, hv], ?_⟩
    simp [handleSubmit, hv, validateForm_fst, emailErr, he]

/-- Witness for C4: submitting the pristine Login form records "Email is
required" and makes zero external calls. -/
theorem submit_invalid_noop_witness :
    (handleSubmit initialState (AuthCallResult.returns none) noToastFail).calls = [] ∧
    (handleSubmit initialState (AuthCallResult.returns none) noToastFail).state.errors.email
      = some "Email is required" := by
  have h := submit_invalid_noop.2 initialState (AuthCallResult.returns none) noToastFail
    rfl rfl
  exact ⟨h.1, h.2⟩

/-- C5: on every exit path of a validated `submit()` — structured success,
structured failure, thrown external call, and even a throwing toast sink —
`loading` is set to true then back to false, ending false; and when the
external call throws, exactly one destructive toast with the generic
fallback message is invoked. -/
theorem submit_always_settles :
    (∀ (s : AuthState) (res : AuthCallResult) (tf : Toast → Bool),
      (validateForm s.isLogin s.formData).2 = true →
        (handleSubmit s res tf).state.loading = false ∧
        (handleSubmit s res tf).loadingSets = [true, false]) ∧
    (∀ (s : AuthState) (tf : Toast → Bool),
      (validateForm s.isLogin s.formData).2 = true →
        (handleSubmit s AuthCallResult.thrown tf).toasts = [genericErrToast]) := by
  refine ⟨fun s res tf hv => ?_, fun s tf hv => ?_⟩
  · exact ⟨by simp [handleSubmit, hv], by simp [handleSubmit, hv]⟩
  · simp [handleSubmit, hv]

/-- Witness for C5: a thrown `signIn` with a toast sink that itself throws
still ends with `loading = false`, and the generic toast was invoked. -/
theorem submit_always_settles_witness :
    (handleSubmit loginState AuthCallResult.thrown allToastFail).state.loading = false ∧
    (handleSubmit loginState AuthCallResult.thrown allToastFail).toasts =
      [genericErrToast] := by
  refine ⟨(submit_always_settles.1 loginState AuthCallResult.thrown allToastFail
    (by decide)).1, submit_always_settles.2 loginState allToastFail (by decide)⟩

/-- C6: `handleForgotPassword` with an empty email toasts "Email Required"
and performs no external call, regardless of every other field (it never
runs the §4.1 validation); with a nonempty email it calls
`resetPassword(email)` exactly once and toasts positively on
`success = true` and destructively with the carried error otherwise; in
every case the state — in particular `loading` — is untouched and no
`loading` transition happens. -/
theorem forgot_password_spec :
    (∀ (s : AuthState) (res : ResetCallResult) (tf : Toast → Bool),
      (handleForgotPassword s res tf).state = s ∧
      (handleForgotPassword s res tf).loadingSets = []) ∧
    (∀ (s : AuthState) (res : ResetCallResult) (tf : Toast → Bool),
      s.formData.email = "" →
        (handleForgotPassword s res tf).toasts = [emailRequiredToast] ∧
        (handleForgotPassword s res tf).calls = []) ∧
    (∀ (s : AuthState) (res : ResetCallResult) (tf : Toast → Bool),
      s.formData.email ≠ "" →
        (handleForgotPassword s res tf).calls = [ExtCall.resetCall s.formData.email] ∧
        (∀ e, res = ResetCallResult.returns true e →
          (handleForgotPassword s res tf).toasts = [resetOkToast]) ∧
        (∀ e, res = ResetCallResult.returns false e →
          (handleForgotPassword s res tf).toasts = [resetFailToast e])) ∧
    (∀ (s : AuthState) (res : ResetCallResult) (tf : Toast → Bool) (p n : String),
      (handleForgotPassword
          { s with formData := { s.formData with password := p, name := n } } res tf).calls =
        (handleForgotPassword s res tf).calls ∧
      (handleForgotPassword
          { s with formData := { s.formData with password := p, name := n } } res tf).toasts =
        (handleForgotPassword s res tf).toasts) := by
  refine ⟨fun s res tf => ?_, fun s res tf he => ?_, fun s res tf he => ?_,
    fun s res tf p n => ?_⟩
  · by_cases he : s.formData.email = "" <;> cases res <;>
      simp [handleForgotPassword, he]
  · simp [handleForgotPassword, he]
  · refine ⟨by cases res <;> simp [handleForgotPassword, he], ?_, ?_⟩
    · rintro e rfl; simp [handleForgotPassword, he]
    · rintro e rfl; simp [handleForgotPassword, he]
  · by_cases he : s.formData.email = "" <;> cases res <;>
      simp [handleForgotPassword, he]

/-- Witness for C6: empty email toasts "Email Required" with zero calls;
nonempty email calls `resetPassword` once and toasts success. -/
theorem forgot_password_spec_witness :
    (handleForgotPassword initialState (ResetCallResult.returns true none)
      noToastFail).toasts = [emailRequiredToast] ∧
    (handleForgotPassword initialState (ResetCallResult.returns true none)
      noToastFail).calls = [] ∧
    (handleForgotPassword loginState (ResetCallResult.returns true none)
      noToastFail).calls = [ExtCall.resetCall "a@b.c"] ∧
    (handleForgotPassword loginState (ResetCallResult.returns true none)
      noToastFail).toasts = [resetOkToast] := by
  have h1 := forgot_password_spec.2.1 initialState (ResetCallResult.returns true none)
    noToastFail rfl
  have h2 := forgot_password_spec.2.2.1 loginState (ResetCallResult.returns true none)
    noToastFail (by decide)
  exact ⟨h1.1, h1.2, by simpa [loginState] using h2.1, h2.2.1 none rfl⟩

/-- C9 (implicit): `handleForgotPassword` has no handler for a thrown
fault — when the awaited reset operation throws, no toast is emitted and
the fault propagates out — unlike `handleSubmit`, whose catch block
confines a thrown external call (it propagates only if the generic toast
itself throws); the fault channel is neutralized only because the shipped
`resetPassword` wrapper catches internally and always returns a
structured record. -/
theorem forgot_password_fault_channel :
    (∀ (s : AuthState) (tf : Toast → Bool), s.formData.email ≠ "" →
      (handleForgotPassword s ResetCallResult.thrown tf).toasts = [] ∧
      (handleForgotPassword s ResetCallResult.thrown tf).raised = true) ∧
    (∀ (s : AuthState) (tf : Toast → Bool),
      (validateForm s.isLogin s.formData).2 = true →
        (handleSubmit s AuthCallResult.thrown tf).raised = tf genericErrToast) ∧
    (∀ m : String, resetPassword (some m) = ResetRet.mk false (some m)) ∧
    resetPassword none = ResetRet.mk true none := by
  refine ⟨fun s tf he => ?_, fun s tf hv => ?_, fun m => rfl, rfl⟩
  · simp [handleForgotPassword, he]
  · simp [handleSubmit, hv]

/-- Witness for C9: with a nonempty email and a throwing reset call, no
toast is invoked and the fault escapes; the same thrown fault inside
`handleSubmit` is confined; the wrapper turns a throw into a structured
failure. -/
theorem forgot_password_fault_channel_witness :
    (handleForgotPassword loginState ResetCallResult.thrown noToastFail).toasts = [] ∧
    (handleForgotPassword loginState ResetCallResult.thrown noToastFail).raised = true ∧
    (handleSubmit loginState AuthCallResult.thrown noToastFail).raised = false ∧
    resetPassword (some "network down") = ResetRet.mk false (some "network down") := by
  have h1 := forgot_password_fault_channel.1 loginState noToastFail (by decide)
  have h2 := forgot_password_fault_channel.2.1 loginState noToastFail (by decide)
  exact ⟨h1.1, h1.2, by simpa [noToastFail] using h2,
    forgot_password_fault_channel.2.2.1 "network down"⟩

end AuthForm
